import Mathlib

/-!
# libshumate: `docs/urlmap.js` and `demos/launcher.js`

A shallow embedding of the two JavaScript files of the repository.

* `UrlMap` embeds the table `baseURLs` of `docs/urlmap.js`.
* `Launcher` embeds the gjs script `demos/launcher.js`: every top-level
  statement is a state transformer on an explicit script state (bindings,
  toolkit objects on a heap addressed by reference, connected handlers), and
  the script is the list of its statements tagged with their source line.
-/

namespace UrlMap

/-- UTF-16 code units of one character, the units JavaScript compares strings by. -/
def charCodeUnits (c : Char) : List Nat :=
  if c.toNat < 0x10000 then [c.toNat]
  else [0xD800 + (c.toNat - 0x10000) / 0x400, 0xDC00 + (c.toNat - 0x10000) % 0x400]

/-- UTF-16 code units of a string. -/
def codeUnits (s : String) : List Nat := s.toList.flatMap charCodeUnits

/-- JavaScript `a < b` on strings: lexicographic order on code units. -/
def jsLt (a b : String) : Bool := decide (codeUnits a < codeUnits b)

/-- JavaScript `s.startsWith(p)`. -/
def startsWith (s p : String) : Bool := p.toList.isPrefixOf s.toList

/-- JavaScript `s.endsWith(p)`. -/
def endsWith (s p : String) : Bool := p.toList.isSuffixOf s.toList

/-- The table of `docs/urlmap.js`, lines 7-16: an array of arrays of strings. -/
def baseURLs : List (List String) := [
    [ "GObject", "https://docs.gtk.org/gobject/" ],
    [ "Gdk", "https://docs.gtk.org/gdk4/" ],
    [ "GdkWayland", "https://gnome.pages.gitlab.gnome.org/gtk/gdk4-wayland/" ],
    [ "GdkX11", "https://gnome.pages.gitlab.gnome.org/gtk/gdk4-x11/" ],
    [ "Gsk", "https://docs.gtk.org/gsk4/" ],
    [ "Gtk", "https://docs.gtk.org/gtk4/" ],
    [ "Pango", "https://docs.gtk.org/Pango/" ],
    [ "PangoCairo", "https://gnome.pages.gitlab.gnome.org/pango/pangocairo/" ]
]

/-- Namespace of an entry: `entry[0]`. -/
def entryNamespace (entry : List String) : Option String := entry[0]?

/-- URL of an entry: `entry[1]`. -/
def entryUrl (entry : List String) : Option String := entry[1]?

/-- The namespaces of a table, in table order. -/
def namespaces (table : List (List String)) : List (Option String) :=
  table.map entryNamespace

/-- URL of the first entry of `table` whose namespace equals `n`. -/
def lookupFirst (table : List (List String)) (n : String) : Option String :=
  match table with
  | [] => none
  | entry :: rest =>
    if entryNamespace entry = some n then entryUrl entry else lookupFirst rest n

/-- URL of the last entry of `table` whose namespace equals `n`. -/
def lookupLast (table : List (List String)) (n : String) : Option String :=
  match table with
  | [] => none
  | entry :: rest =>
    match lookupLast rest n with
    | some u => some u
    | none => if entryNamespace entry = some n then entryUrl entry else none

/-- Adjacent entries are in strictly ascending code-unit order of their namespaces. -/
def strictlyAscending : List (List String) → Bool
  | [] => true
  | [_] => true
  | a :: b :: rest =>
    (match entryNamespace a, entryNamespace b with
     | some x, some y => jsLt x y
     | _, _ => false) && strictlyAscending (b :: rest)

end UrlMap

namespace Launcher

/-- The identifiers that occur free or bound at the top level of `launcher.js`. -/
inductive Ident
  | imports | log
  | Gdk | Gtk | Shumate
  | Clutter | PADDING
  | window | view | buttons | total_width | orange | layer | marker
  | map_view_button_release_cb
  deriving DecidableEq, Repr

/-- The two functions the script defines: the declaration on line 43 and the
arrow function written on line 77. -/
inductive ScriptFn
  | map_view_button_release_cb
  | arrow77
  deriving DecidableEq, Repr

/-- GObject-introspection namespaces, as `imports.gi.<name>` yields them. -/
inductive Namespace
  | Gdk | Gtk | Shumate | Clutter
  | other (name : String)
  deriving DecidableEq, Repr

/-- Functions provided by the host rather than defined by the script. -/
inductive HostFn
  | log
  | main_quit
  | other (name : String)
  deriving DecidableEq, Repr

/-- JavaScript values the script handles. Numbers are kept as the exact value of
their literal; toolkit objects are references into the heap. -/
inductive Value
  | undefined
  | null
  | bool (b : Bool)
  | num (q : ℚ)
  | str (s : String)
  | importer
  | module (ns : Namespace)
  | hostFn (f : HostFn)
  | scriptFn (f : ScriptFn)
  | ref (r : Nat)
  deriving DecidableEq, Repr

/-- Errors a statement can raise. -/
inductive JSError
  | referenceError (x : Ident)
  | typeError (what : String)
  deriving DecidableEq, Repr

/-- A `Gtk.Window` of the host toolkit. The toolkit is not part of the repository:
each of its methods that the script calls is taken to exist and to do what the
call says (set the title, the size request, add a child, show, connect). -/
structure Window where
  title : Option String
  size_request : Option (ℚ × ℚ)
  children : List Nat
  handlers : List (String × Value)
  visible : Bool
  deriving DecidableEq, Repr

/-- Modelled from the spec: the map view (`Shumate.View`) is absent from src/; it
is the spec's Viewport (centre coordinate, zoom level) together with its ordered
layer stack and the handlers connected to it. -/
structure View where
  layers : List Nat
  zoom_level : Option ℚ
  kinetic_mode : Bool
  center : Option (ℚ × ℚ)
  handlers : List (String × Value)
  deriving DecidableEq, Repr

/-- Modelled from the spec: `Shumate.MarkerLayer` is absent from src/; it is the
spec's ordered collection of markers, held by reference. -/
structure MarkerLayer where
  markers : List Nat
  visible : Bool
  deriving DecidableEq, Repr

/-- Modelled from the spec: the marker (`Shumate.Label`) is absent from src/; it is
the spec's Marker: geographic position (latitude, longitude), display payload and
reactive flag. -/
structure Label where
  text : Value
  font : Value
  text_color : Value
  color : Value
  location : Option (ℚ × ℚ)
  reactive : Bool
  deriving DecidableEq, Repr

/-- A `Clutter.Actor`: only its position is set by the script. -/
structure Actor where
  position : Option (Value × Value)
  deriving DecidableEq, Repr

/-- Toolkit objects living on the heap. -/
inductive Obj
  | window (o : Window)
  | view (o : View)
  | markerLayer (o : MarkerLayer)
  | label (o : Label)
  | actor (o : Actor)
  | color (r g b a : ℚ)
  deriving DecidableEq, Repr

/-- The properties of the global object that the script can observe: the free
identifiers of the script that it does not declare itself. A property that is
absent is `none`. -/
structure Globals where
  imports : Option Value
  log : Option Value
  Clutter : Option Value
  PADDING : Option Value
  deriving DecidableEq, Repr

/-- State of a run of the script. `globals` are the properties of the global
object, `lexical` the script-level `let`/`const` bindings initialised so far. -/
structure State where
  globals : Globals
  lexical : List (Ident × Value)
  heap : List Obj
  versions : List (String × String)
  gtkInitialised : Bool
  mainLoop : Bool
  logged : List (List Value)
  deriving DecidableEq, Repr

/-- A binding that is absent or not yet initialised raises a ReferenceError. -/
def fromBinding (x : Ident) : Option Value → Except JSError Value
  | some v => .ok v
  | none => .error (.referenceError x)

/-- Reading an identifier. The function declared on line 43 is hoisted: it is bound
before the first statement runs. The names declared with `let` or `const` at the
top level (lines 36-38, 53, 58, 62, 63, 68-70) shadow the global object for the
whole script and are in their temporal dead zone until their declaration has
run. Any other name is looked up on the global object. -/
def State.read (s : State) (x : Ident) : Except JSError Value :=
  match x with
  | .map_view_button_release_cb => .ok (.scriptFn .map_view_button_release_cb)
  | .imports => fromBinding x s.globals.imports
  | .log => fromBinding x s.globals.log
  | .Clutter => fromBinding x s.globals.Clutter
  | .PADDING => fromBinding x s.globals.PADDING
  | .Gdk | .Gtk | .Shumate | .window | .view | .buttons | .total_width | .orange
  | .layer | .marker => fromBinding x (s.lexical.lookup x)

/-- Running a `let`/`const` declaration initialises the binding. -/
def State.declare (s : State) (x : Ident) (v : Value) : State :=
  { s with lexical := (x, v) :: s.lexical }

/-- Allocate a fresh toolkit object; its reference is its heap position. -/
def State.alloc (s : State) (o : Obj) : Nat × State :=
  (s.heap.length, { s with heap := s.heap ++ [o] })

/-- Apply a method to the object a value refers to. -/
def State.call (s : State) (v : Value) (method : Obj → Except JSError Obj) :
    Except JSError State :=
  match v with
  | .ref r =>
    match s.heap[r]? with
    | some o => do
      let o2 ← method o
      pure { s with heap := s.heap.set r o2 }
    | none => .error (.typeError "dangling reference")
  | _ => .error (.typeError "not an object")

/-- The value `imports.gi.<name>`: the GI namespace of that name. -/
def importGi (imp : Value) (ns : Namespace) : Except JSError Value :=
  match imp with
  | .importer => .ok (.module ns)
  | _ => .error (.typeError "imports.gi is undefined")

/-- The object `imports.gi.versions`, on which lines 33-34 set a property. -/
def importGiVersions (imp : Value) : Except JSError Unit :=
  match imp with
  | .importer => .ok ()
  | _ => .error (.typeError "imports.gi is undefined")

/-- A namespace member such as `Gtk.Window` exists only on that namespace. -/
def expectModule (v : Value) (ns : Namespace) : Except JSError Unit :=
  match v with
  | .module m => if m = ns then .ok () else .error (.typeError "no such member")
  | _ => .error (.typeError "no such member")

/-- The method `window.set_size_request (w, h)`. -/
def set_size_request (w h : ℚ) : Obj → Except JSError Obj
  | .window o => .ok (.window { o with size_request := some (w, h) })
  | _ => .error (.typeError "set_size_request is not a function")

/-- The assignment `window.title = t`. -/
def set_title (t : String) : Obj → Except JSError Obj
  | .window o => .ok (.window { o with title := some t })
  | _ => .error (.typeError "title")

/-- The method `window.add (child)`. -/
def add (child : Nat) : Obj → Except JSError Obj
  | .window o => .ok (.window { o with children := o.children ++ [child] })
  | _ => .error (.typeError "add is not a function")

/-- The method `window.show ()` and `layer.show ()`. -/
def «show» : Obj → Except JSError Obj
  | .window o => .ok (.window { o with visible := true })
  | .markerLayer o => .ok (.markerLayer { o with visible := true })
  | _ => .error (.typeError "show is not a function")

/-- The method `actor.set_position (x, y)`. -/
def set_position (x y : Value) : Obj → Except JSError Obj
  | .actor _ => .ok (.actor { position := some (x, y) })
  | _ => .error (.typeError "set_position is not a function")

/-- Modelled from the spec: `marker.set_location (latitude, longitude)` is absent from
src/; it stores the marker's geographic position. -/
def set_location (latitude longitude : ℚ) : Obj → Except JSError Obj
  | .label o => .ok (.label { o with location := some (latitude, longitude) })
  | _ => .error (.typeError "set_location is not a function")

/-- Modelled from the spec: `marker.set_reactive (flag)` is absent from src/; it sets
the marker's reactive flag. -/
def set_reactive (flag : Bool) : Obj → Except JSError Obj
  | .label o => .ok (.label { o with reactive := flag })
  | _ => .error (.typeError "set_reactive is not a function")

/-- Modelled from the spec: `layer.add_marker (marker)` is absent from src/; it
appends the marker (by reference) to the layer's ordered collection. -/
def add_marker (marker : Nat) : Obj → Except JSError Obj
  | .markerLayer o => .ok (.markerLayer { o with markers := o.markers ++ [marker] })
  | _ => .error (.typeError "add_marker is not a function")

/-- Modelled from the spec: `view.add_layer (layer)` is absent from src/; it pushes
the layer (by reference) on the view's layer stack. -/
def add_layer (layer : Nat) : Obj → Except JSError Obj
  | .view o => .ok (.view { o with layers := o.layers ++ [layer] })
  | _ => .error (.typeError "add_layer is not a function")

/-- Modelled from the spec: the assignment `view.zoom_level = z` is the spec's
`setZoom(level)`. -/
def set_zoom_level (z : ℚ) : Obj → Except JSError Obj
  | .view o => .ok (.view { o with zoom_level := some z })
  | _ => .error (.typeError "zoom_level")

/-- The assignment `view.kinetic_mode = b`. -/
def set_kinetic_mode (b : Bool) : Obj → Except JSError Obj
  | .view o => .ok (.view { o with kinetic_mode := b })
  | _ => .error (.typeError "kinetic_mode")

/-- Modelled from the spec: `view.center_on (latitude, longitude)` is the spec's
`setCenter(coord)`. -/
def center_on (latitude longitude : ℚ) : Obj → Except JSError Obj
  | .view o => .ok (.view { o with center := some (latitude, longitude) })
  | _ => .error (.typeError "center_on is not a function")

/-- The GObject method `object.connect (signal, handler)`: the handler is
recorded under the signal name it was given. -/
def connect (signal : String) (handler : Value) : Obj → Except JSError Obj
  | .window o => .ok (.window { o with handlers := o.handlers ++ [(signal, handler)] })
  | .view o => .ok (.view { o with handlers := o.handlers ++ [(signal, handler)] })
  | _ => .error (.typeError "connect is not a function")

/-- The reference a value holds. -/
def refOf (v : Value) : Except JSError Nat :=
  match v with
  | .ref r => .ok r
  | _ => .error (.typeError "not an object")

/-- A top-level statement: a state transformer that may raise. -/
abbrev Stmt := State → Except JSError State

/-- Line 33: `imports.gi.versions.Gtk = '4.0';` -/
def line33 : Stmt := fun s => do
  let imp ← s.read .imports
  importGiVersions imp
  pure { s with versions := s.versions ++ [("Gtk", "4.0")] }

/-- Line 34: `imports.gi.versions.Gdk = '4.0';` -/
def line34 : Stmt := fun s => do
  let imp ← s.read .imports
  importGiVersions imp
  pure { s with versions := s.versions ++ [("Gdk", "4.0")] }

/-- Line 36: `const Gdk = imports.gi.Gdk;` -/
def line36 : Stmt := fun s => do
  let imp ← s.read .imports
  let m ← importGi imp .Gdk
  pure (s.declare .Gdk m)

/-- Line 37: `const Gtk = imports.gi.Gtk;` -/
def line37 : Stmt := fun s => do
  let imp ← s.read .imports
  let m ← importGi imp .Gtk
  pure (s.declare .Gtk m)

/-- Line 38: `const Shumate = imports.gi.Shumate;` -/
def line38 : Stmt := fun s => do
  let imp ← s.read .imports
  let m ← importGi imp .Shumate
  pure (s.declare .Shumate m)

/-- Line 40: `Gtk.init ();` -/
def line40 : Stmt := fun s => do
  let gtk ← s.read .Gtk
  expectModule gtk .Gtk
  pure { s with gtkInitialised := true }

/-- Line 53: `let window = new Gtk.Window (Gtk.Window.TOPLEVEL);` -/
def line53 : Stmt := fun s => do
  let gtk ← s.read .Gtk
  expectModule gtk .Gtk
  let gtk2 ← s.read .Gtk
  expectModule gtk2 .Gtk
  let (r, s1) := s.alloc
    (.window { title := none, size_request := none, children := [], handlers := [],
               visible := false })
  pure (s1.declare .window (.ref r))

/-- Line 54: `window.title = "Shumate Javascript Example";` -/
def line54 : Stmt := fun s => do
  let w ← s.read .window
  s.call w (set_title "Shumate Javascript Example")

/-- Line 55: `window.set_size_request (800, 600);` -/
def line55 : Stmt := fun s => do
  let w ← s.read .window
  s.call w (set_size_request 800 600)

/-- Line 58: `let view = new Shumate.View();` -/
def line58 : Stmt := fun s => do
  let sh ← s.read .Shumate
  expectModule sh .Shumate
  let (r, s1) := s.alloc
    (.view { layers := [], zoom_level := none, kinetic_mode := false, center := none,
             handlers := [] })
  pure (s1.declare .view (.ref r))

/-- Line 59: `window.add (view);` -/
def line59 : Stmt := fun s => do
  let w ← s.read .window
  let v ← s.read .view
  let child ← refOf v
  s.call w (add child)

/-- Line 62: `let buttons = new Clutter.Actor ();` -/
def line62 : Stmt := fun s => do
  let cl ← s.read .Clutter
  expectModule cl .Clutter
  let (r, s1) := s.alloc (.actor { position := none })
  pure (s1.declare .buttons (.ref r))

/-- Line 63: `let total_width = 0;` -/
def line63 : Stmt := fun s =>
  pure (s.declare .total_width (.num 0))

/-- Line 64: `buttons.set_position (PADDING, PADDING);` -/
def line64 : Stmt := fun s => do
  let b ← s.read .buttons
  let p1 ← s.read .PADDING
  let p2 ← s.read .PADDING
  s.call b (set_position p1 p2)

/-- Line 68: `let orange= Clutter.Color.new(0xf3,0x94,0x07,0xbb);` -/
def line68 : Stmt := fun s => do
  let cl ← s.read .Clutter
  expectModule cl .Clutter
  let (r, s1) := s.alloc (.color 0xf3 0x94 0x07 0xbb)
  pure (s1.declare .orange (.ref r))

/-- Line 69: `let layer=new Shumate.MarkerLayer();` -/
def line69 : Stmt := fun s => do
  let sh ← s.read .Shumate
  expectModule sh .Shumate
  let (r, s1) := s.alloc (.markerLayer { markers := [], visible := false })
  pure (s1.declare .layer (.ref r))

/-- Line 70:
`let marker=Shumate.Label.new_with_text("Sample Marker","Serif 14",null,orange);` -/
def line70 : Stmt := fun s => do
  let sh ← s.read .Shumate
  expectModule sh .Shumate
  let o ← s.read .orange
  let (r, s1) := s.alloc
    (.label { text := .str "Sample Marker", font := .str "Serif 14", text_color := .null,
              color := o, location := none, reactive := false })
  pure (s1.declare .marker (.ref r))

/-- Line 71: `marker.set_location(45.466, -73.75);` -/
def line71 : Stmt := fun s => do
  let m ← s.read .marker
  s.call m (set_location 45.466 (-73.75))

/-- Line 72: `layer.add_marker(marker);` -/
def line72 : Stmt := fun s => do
  let l ← s.read .layer
  let m ← s.read .marker
  let mr ← refOf m
  s.call l (add_marker mr)

/-- Line 73: `marker.set_reactive(true);` -/
def line73 : Stmt := fun s => do
  let m ← s.read .marker
  s.call m (set_reactive true)

/-- Line 74: `layer.show();` -/
def line74 : Stmt := fun s => do
  let l ← s.read .layer
  s.call l «show»

/-- Line 75: `view.add_layer(layer);` -/
def line75 : Stmt := fun s => do
  let v ← s.read .view
  let l ← s.read .layer
  let lr ← refOf l
  s.call v (add_layer lr)

/-- Line 77:
`view.connect('button-pressed-event', (w, event) => map_view_button_release_cb (event));`
The arrow function is only created here; its body runs when the signal fires. -/
def line77 : Stmt := fun s => do
  let v ← s.read .view
  s.call v (connect "button-pressed-event" (.scriptFn .arrow77))

/-- Line 80: `view.zoom_level = 12;` -/
def line80 : Stmt := fun s => do
  let v ← s.read .view
  s.call v (set_zoom_level 12)

/-- Line 81: `view.kinetic_mode = true;` -/
def line81 : Stmt := fun s => do
  let v ← s.read .view
  s.call v (set_kinetic_mode true)

/-- Line 82: `view.center_on (45.466, -73.75);` -/
def line82 : Stmt := fun s => do
  let v ← s.read .view
  s.call v (center_on 45.466 (-73.75))

/-- Line 84: `window.connect ("destroy", Gtk.main_quit);` -/
def line84 : Stmt := fun s => do
  let w ← s.read .window
  let gtk ← s.read .Gtk
  expectModule gtk .Gtk
  s.call w (connect "destroy" (.hostFn .main_quit))

/-- Line 86: `window.show ();` -/
def line86 : Stmt := fun s => do
  let w ← s.read .window
  s.call w «show»

/-- Line 87: `Gtk.main ();` enters the main loop. -/
def line87 : Stmt := fun s => do
  let gtk ← s.read .Gtk
  expectModule gtk .Gtk
  pure { s with mainLoop := true }

/-- The top-level statements of `launcher.js` in source order, each with its line.
The function declaration of lines 43-51 is not a statement that runs: it is
hoisted (see `initState`). -/
def launcher : List (Nat × Stmt) :=
  [(33, line33), (34, line34), (36, line36), (37, line37), (38, line38), (40, line40),
   (53, line53), (54, line54), (55, line55), (58, line58), (59, line59),
   (62, line62), (63, line63), (64, line64),
   (68, line68), (69, line69), (70, line70), (71, line71), (72, line72), (73, line73),
   (74, line74), (75, line75), (77, line77),
   (80, line80), (81, line81), (82, line82), (84, line84), (86, line86), (87, line87)]

/-- State in which the script starts, given the global object `g`: no `let`/`const`
binding is initialised and no toolkit object exists. -/
def initState (g : Globals) : State :=
  { globals := g, lexical := [], heap := [], versions := [], gtkInitialised := false,
    mainLoop := false, logged := [] }

/-- The global object gjs provides: `imports` and `log`, and neither `Clutter` nor
`PADDING`. -/
def gjsGlobals : Globals :=
  { imports := some .importer, log := some (.hostFn .log), Clutter := none, PADDING := none }

/-- Run statements in order; the first error stops the run and is reported with
the line of the statement that raised it. -/
def exec : List (Nat × Stmt) → State → Except (Nat × JSError) State
  | [], s => .ok s
  | (line, stmt) :: rest, s =>
    match stmt s with
    | .ok s1 => exec rest s1
    | .error e => .error (line, e)

/-- The statements strictly before a source line. -/
def upTo (line : Nat) : List (Nat × Stmt) :=
  launcher.takeWhile (fun p => p.1 < line)

/-- The state in which the statement on `line` starts, from global object `g`. -/
def stateAt (g : Globals) (line : Nat) : Except (Nat × JSError) State :=
  exec (upTo line) (initState g)

/-- The whole script, run from global object `g`. -/
def runScript (g : Globals) : Except (Nat × JSError) State :=
  exec launcher (initState g)

/-- A `button` record of an event: the pointer position and whatever else it carries. -/
structure Button where
  x : ℚ
  y : ℚ
  other : List (String × Value)
  deriving DecidableEq, Repr

/-- An event as the handler receives it: an object with a `button` record, and
whatever other properties the toolkit puts on it. -/
structure Event where
  button : Button
  other : List (String × Value)
  deriving DecidableEq, Repr

/-- The functions the handler calls that are not part of the script, taken as
parameters: the view's two coordinate conversions, which depend on the view's
state, and the gjs global `log`, given its argument list. Each may raise. -/
structure Host where
  y_to_latitude : View → ℚ → Except JSError ℚ
  x_to_longitude : View → ℚ → Except JSError ℚ
  log : List Value → Except JSError Unit

/-- The `Shumate.View` a value refers to. -/
def State.viewOf (s : State) (v : Value) : Except JSError View :=
  match v with
  | .ref r =>
    match s.heap[r]? with
    | some (.view o) => .ok o
    | _ => .error (.typeError "not a view")
  | _ => .error (.typeError "not a view")

/-- The format string of line 48. -/
def clickFormat : String := "Map clicked at %f, %f \n"

/-- Lines 43-51: `function map_view_button_release_cb (event)`. The result is the
returned value and the state with the arguments of the `log` call recorded. -/
def map_view_button_release_cb (h : Host) (s : State) (event : Event) :
    Except JSError (Value × State) := do
  let v1 ← s.read .view
  let view1 ← s.viewOf v1
  let lat ← h.y_to_latitude view1 event.button.y
  let v2 ← s.read .view
  let view2 ← s.viewOf v2
  let lon ← h.x_to_longitude view2 event.button.x
  let logFn ← s.read .log
  match logFn with
  | .hostFn .log =>
    let args := [Value.str clickFormat, .num lat, .num lon]
    h.log args
    pure (.bool true, { s with logged := s.logged ++ [args] })
  | _ => .error (.typeError "log is not a function")

/-- Line 77, the arrow function `(w, event) => map_view_button_release_cb (event)`:
its value is the value of the call. -/
def arrow77 (h : Host) (s : State) (_w : Value) (event : Event) :
    Except JSError (Value × State) := do
  let f ← s.read .map_view_button_release_cb
  match f with
  | .scriptFn .map_view_button_release_cb => map_view_button_release_cb h s event
  | _ => .error (.typeError "map_view_button_release_cb is not a function")

/-- The handlers connected to a toolkit object. -/
def Obj.handlers : Obj → List (String × Value)
  | .window o => o.handlers
  | .view o => o.handlers
  | _ => []

/-- The handlers connected to object `r` for signal `signal`, in connection order. -/
def State.handlersFor (s : State) (r : Nat) (signal : String) : List Value :=
  match s.heap[r]? with
  | some o => (o.handlers.filter (fun p => p.1 = signal)).map (fun p => p.2)
  | none => []

/-- The toolkit calling one connected handler with the emitting widget and the event. -/
def invokeHandler (h : Host) (s : State) (f : Value) (w : Value) (event : Event) :
    Except JSError (Value × State) :=
  match f with
  | .scriptFn .arrow77 => arrow77 h s w event
  | .scriptFn .map_view_button_release_cb => map_view_button_release_cb h s event
  | .hostFn .main_quit => .ok (.undefined, { s with mainLoop := false })
  | _ => .error (.typeError "not callable")

/-- States a run can be in: after any number of the script's statements, and after
the toolkit has called a connected handler from such a state. -/
inductive Reachable (h : Host) (g : Globals) : State → Prop
  | script (k : Nat) (s : State) :
      exec (launcher.take k) (initState g) = .ok s → Reachable h g s
  | dispatch (s s1 : State) (r : Nat) (signal : String) (f w ret : Value) (event : Event) :
      Reachable h g s → f ∈ s.handlersFor r signal →
      invokeHandler h s f w event = .ok (ret, s1) → Reachable h g s1

/-- The global object of a gjs process in which `Clutter` and `PADDING` are also
global properties. -/
def gjsGlobalsWithClutter : Globals :=
  { gjsGlobals with Clutter := some (.module .Clutter), PADDING := some (.num 10) }

/-! ### The run written out

The states of a successful run, statement by statement. The theorems below show
that `exec` on the statements of the script produces exactly these states. -/

/-- The window as line 53 creates it. -/
def windowAt53 : Obj :=
  .window
    { title := none, size_request := none, children := [],
      handlers := [], visible := false }

/-- The window after line 54. -/
def windowAt54 : Obj :=
  .window
    { title := some "Shumate Javascript Example", size_request := none, children := [],
      handlers := [], visible := false }

/-- The window after line 55. -/
def windowAt55 : Obj :=
  .window
    { title := some "Shumate Javascript Example", size_request := some (800, 600), children := [],
      handlers := [], visible := false }

/-- The window after line 59. -/
def windowAt59 : Obj :=
  .window
    { title := some "Shumate Javascript Example", size_request := some (800, 600), children := [1],
      handlers := [], visible := false }

/-- The window after line 84. -/
def windowAt84 : Obj :=
  .window
    { title := some "Shumate Javascript Example", size_request := some (800, 600), children := [1],
      handlers := [("destroy", .hostFn .main_quit)], visible := false }

/-- The window after line 86. -/
def windowAt86 : Obj :=
  .window
    { title := some "Shumate Javascript Example", size_request := some (800, 600), children := [1],
      handlers := [("destroy", .hostFn .main_quit)], visible := true }

/-- The view as line 58 creates it. -/
def viewAt58 : Obj :=
  .view
    { layers := [], zoom_level := none, kinetic_mode := false, center := none,
      handlers := [] }

/-- The view after line 75. -/
def viewAt75 : Obj :=
  .view
    { layers := [4], zoom_level := none, kinetic_mode := false, center := none,
      handlers := [] }

/-- The view after line 77. -/
def viewAt77 : Obj :=
  .view
    { layers := [4], zoom_level := none, kinetic_mode := false, center := none,
      handlers := [("button-pressed-event", .scriptFn .arrow77)] }

/-- The view after line 80. -/
def viewAt80 : Obj :=
  .view
    { layers := [4], zoom_level := some 12, kinetic_mode := false, center := none,
      handlers := [("button-pressed-event", .scriptFn .arrow77)] }

/-- The view after line 81. -/
def viewAt81 : Obj :=
  .view
    { layers := [4], zoom_level := some 12, kinetic_mode := true, center := none,
      handlers := [("button-pressed-event", .scriptFn .arrow77)] }

/-- The view's record after line 82. -/
def viewAt82Record : View :=
  { layers := [4], zoom_level := some 12, kinetic_mode := true,
    center := some (45.466, -73.75),
    handlers := [("button-pressed-event", .scriptFn .arrow77)] }

/-- The view after line 82. -/
def viewAt82 : Obj := .view viewAt82Record

/-- The marker as line 70 creates it. -/
def markerAt70 : Obj :=
  .label
    { text := .str "Sample Marker", font := .str "Serif 14", text_color := .null,
      color := .ref 3, location := none, reactive := false }

/-- The marker after line 71. -/
def markerAt71 : Obj :=
  .label
    { text := .str "Sample Marker", font := .str "Serif 14", text_color := .null,
      color := .ref 3, location := some (45.466, -73.75), reactive := false }

/-- The marker after line 73. -/
def markerAt73 : Obj :=
  .label
    { text := .str "Sample Marker", font := .str "Serif 14", text_color := .null,
      color := .ref 3, location := some (45.466, -73.75), reactive := true }

/-- The toolkit objects after the first `k` statements of a run in which they all
succeed; `p` is the value of `PADDING`. -/
def heapAt (p : Value) : Nat → List Obj
  | 0 | 1 | 2 | 3 | 4 | 5 | 6 => []
  | 7 => [windowAt53]
  | 8 => [windowAt54]
  | 9 => [windowAt55]
  | 10 => [windowAt55, viewAt58]
  | 11 => [windowAt59, viewAt58]
  | 12 => [windowAt59, viewAt58, .actor { position := none }]
  | 13 => [windowAt59, viewAt58, .actor { position := none }]
  | 14 => [windowAt59, viewAt58, .actor { position := some (p, p) }]
  | 15 => [windowAt59, viewAt58, .actor { position := some (p, p) }, .color 0xf3 0x94 0x07 0xbb]
  | 16 => [windowAt59, viewAt58, .actor { position := some (p, p) }, .color 0xf3 0x94 0x07 0xbb, .markerLayer { markers := [], visible := false }]
  | 17 => [windowAt59, viewAt58, .actor { position := some (p, p) }, .color 0xf3 0x94 0x07 0xbb, .markerLayer { markers := [], visible := false }, markerAt70]
  | 18 => [windowAt59, viewAt58, .actor { position := some (p, p) }, .color 0xf3 0x94 0x07 0xbb, .markerLayer { markers := [], visible := false }, markerAt71]
  | 19 => [windowAt59, viewAt58, .actor { position := some (p, p) }, .color 0xf3 0x94 0x07 0xbb, .markerLayer { markers := [5], visible := false }, markerAt71]
  | 20 => [windowAt59, viewAt58, .actor { position := some (p, p) }, .color 0xf3 0x94 0x07 0xbb, .markerLayer { markers := [5], visible := false }, markerAt73]
  | 21 => [windowAt59, viewAt58, .actor { position := some (p, p) }, .color 0xf3 0x94 0x07 0xbb, .markerLayer { markers := [5], visible := true }, markerAt73]
  | 22 => [windowAt59, viewAt75, .actor { position := some (p, p) }, .color 0xf3 0x94 0x07 0xbb, .markerLayer { markers := [5], visible := true }, markerAt73]
  | 23 => [windowAt59, viewAt77, .actor { position := some (p, p) }, .color 0xf3 0x94 0x07 0xbb, .markerLayer { markers := [5], visible := true }, markerAt73]
  | 24 => [windowAt59, viewAt80, .actor { position := some (p, p) }, .color 0xf3 0x94 0x07 0xbb, .markerLayer { markers := [5], visible := true }, markerAt73]
  | 25 => [windowAt59, viewAt81, .actor { position := some (p, p) }, .color 0xf3 0x94 0x07 0xbb, .markerLayer { markers := [5], visible := true }, markerAt73]
  | 26 => [windowAt59, viewAt82, .actor { position := some (p, p) }, .color 0xf3 0x94 0x07 0xbb, .markerLayer { markers := [5], visible := true }, markerAt73]
  | 27 => [windowAt84, viewAt82, .actor { position := some (p, p) }, .color 0xf3 0x94 0x07 0xbb, .markerLayer { markers := [5], visible := true }, markerAt73]
  | _ => [windowAt86, viewAt82, .actor { position := some (p, p) }, .color 0xf3 0x94 0x07 0xbb, .markerLayer { markers := [5], visible := true }, markerAt73]

/-- The `let`/`const` bindings initialised after the first `k` statements, most
recent first. -/
def lexicalAt : Nat → List (Ident × Value)
  | 0 | 1 | 2 =>
    []
  | 3 =>
    [(.Gdk, .module .Gdk)]
  | 4 =>
    [(.Gtk, .module .Gtk), (.Gdk, .module .Gdk)]
  | 5 | 6 =>
    [(.Shumate, .module .Shumate), (.Gtk, .module .Gtk), (.Gdk, .module .Gdk)]
  | 7 | 8 | 9 =>
    [(.window, .ref 0),
     (.Shumate, .module .Shumate), (.Gtk, .module .Gtk), (.Gdk, .module .Gdk)]
  | 10 | 11 =>
    [(.view, .ref 1), (.window, .ref 0),
     (.Shumate, .module .Shumate), (.Gtk, .module .Gtk), (.Gdk, .module .Gdk)]
  | 12 =>
    [(.buttons, .ref 2), (.view, .ref 1), (.window, .ref 0),
     (.Shumate, .module .Shumate), (.Gtk, .module .Gtk), (.Gdk, .module .Gdk)]
  | 13 | 14 =>
    [(.total_width, .num 0),
     (.buttons, .ref 2), (.view, .ref 1), (.window, .ref 0),
     (.Shumate, .module .Shumate), (.Gtk, .module .Gtk), (.Gdk, .module .Gdk)]
  | 15 =>
    [(.orange, .ref 3), (.total_width, .num 0),
     (.buttons, .ref 2), (.view, .ref 1), (.window, .ref 0),
     (.Shumate, .module .Shumate), (.Gtk, .module .Gtk), (.Gdk, .module .Gdk)]
  | 16 =>
    [(.layer, .ref 4), (.orange, .ref 3), (.total_width, .num 0),
     (.buttons, .ref 2), (.view, .ref 1), (.window, .ref 0),
     (.Shumate, .module .Shumate), (.Gtk, .module .Gtk), (.Gdk, .module .Gdk)]
  | _ =>
    [(.marker, .ref 5), (.layer, .ref 4), (.orange, .ref 3), (.total_width, .num 0),
     (.buttons, .ref 2), (.view, .ref 1), (.window, .ref 0),
     (.Shumate, .module .Shumate), (.Gtk, .module .Gtk), (.Gdk, .module .Gdk)]

/-- The state after the first `k` statements of a run in which they all succeed,
written out. -/
def trace (g : Globals) (p : Value) (k : Nat) : State :=
  { globals := g,
    lexical := lexicalAt k,
    heap := heapAt p k,
    versions := match k with
      | 0 => []
      | 1 => [("Gtk", "4.0")]
      | _ => [("Gtk", "4.0"), ("Gdk", "4.0")],
    gtkInitialised := decide (6 ≤ k),
    mainLoop := decide (29 ≤ k),
    logged := [] }

/-- Some script-defined function is connected as a handler to some object. -/
def hasScriptHandler (s : State) : Bool :=
  s.heap.any (fun o => o.handlers.any (fun q =>
    match q.2 with
    | .scriptFn _ => true
    | _ => false))

/-- The name `view` is initialised to a `Shumate.View` that the window `window` names
has as a child. -/
def viewInWindow (s : State) : Bool :=
  match s.lexical.lookup .view, s.lexical.lookup .window with
  | some (.ref v), some (.ref w) =>
    (match s.heap[v]?, s.heap[w]? with
     | some (.view _), some (.window win) => win.children.contains v
     | _, _ => false)
  | _, _ => false

/-- A host for concrete runs: a view whose two conversions differ, and a `log` that
returns normally. -/
def exampleHost : Host :=
  { y_to_latitude := fun _ y => .ok (90 - y),
    x_to_longitude := fun _ x => .ok (x - 180),
    log := fun _ => .ok () }

/-- The state in which the main loop runs when the script is started with `Clutter`
and `PADDING` bound. -/
def exampleState : State := trace gjsGlobalsWithClutter (.num 10) 29

/-- A click at pixel (400, 300). -/
def exampleEvent : Event :=
  { button := { x := 400, y := 300, other := [] }, other := [] }

/-- The same click carrying other event data. -/
def exampleEvent2 : Event :=
  { button := { x := 400, y := 300, other := [("button", .num 1)] },
    other := [("type", .str "button-press")] }

end Launcher

/-! ## `docs/urlmap.js` -/

namespace UrlMap

theorem lookupFirst_none_of_not_mem (table : List (List String)) (n : String)
    (h : some n ∉ namespaces table) : lookupFirst table n = none := by
  induction table with
  | nil => rfl
  | cons entry rest ih =>
    simp only [namespaces, List.map_cons, List.mem_cons, not_or] at h
    have h1 : ¬ entryNamespace entry = some n := fun e => h.1 e.symm
    simp only [lookupFirst, h1, if_false]
    exact ih h.2

theorem lookupLast_none_of_not_mem (table : List (List String)) (n : String)
    (h : some n ∉ namespaces table) : lookupLast table n = none := by
  induction table with
  | nil => rfl
  | cons entry rest ih =>
    simp only [namespaces, List.map_cons, List.mem_cons, not_or] at h
    have h1 : ¬ entryNamespace entry = some n := fun e => h.1 e.symm
    have h2 : lookupLast rest n = none := ih h.2
    simp only [lookupLast, h2, h1, if_false]

theorem lookupFirst_eq_lookupLast_of_nodup (table : List (List String))
    (h : (namespaces table).Nodup) (n : String) :
    lookupFirst table n = lookupLast table n := by
  induction table with
  | nil => rfl
  | cons entry rest ih =>
    simp only [namespaces, List.map_cons, List.nodup_cons] at h
    by_cases hn : entryNamespace entry = some n
    · have h2 : lookupLast rest n = none :=
        lookupLast_none_of_not_mem rest n (by rw [← hn]; exact h.1)
      simp only [lookupFirst, lookupLast, hn, h2, if_true]
    · have ih2 := ih h.2
      simp only [lookupFirst, lookupLast, hn, if_false]
      rw [ih2]
      cases lookupLast rest n <;> rfl

theorem isPrefixOf_append_self (a b : List Char) : a.isPrefixOf (a ++ b) = true := by
  rw [List.isPrefixOf_iff_prefix]
  exact List.prefix_append a b

/-- C3: `baseURLs` is a map: no namespace is the key of two entries, so looking
a namespace up from the front and from the back of the table give the same
result; the table has 8 entries, each listed namespace has its URL and no other
string has one. -/
theorem baseURLs_is_a_map :
    (namespaces baseURLs).Nodup ∧
    (∀ n : String, lookupFirst baseURLs n = lookupLast baseURLs n) ∧
    baseURLs.length = 8 ∧
    lookupFirst baseURLs "GObject" = some "https://docs.gtk.org/gobject/" ∧
    lookupFirst baseURLs "Gdk" = some "https://docs.gtk.org/gdk4/" ∧
    lookupFirst baseURLs "GdkWayland"
      = some "https://gnome.pages.gitlab.gnome.org/gtk/gdk4-wayland/" ∧
    lookupFirst baseURLs "GdkX11"
      = some "https://gnome.pages.gitlab.gnome.org/gtk/gdk4-x11/" ∧
    lookupFirst baseURLs "Gsk" = some "https://docs.gtk.org/gsk4/" ∧
    lookupFirst baseURLs "Gtk" = some "https://docs.gtk.org/gtk4/" ∧
    lookupFirst baseURLs "Pango" = some "https://docs.gtk.org/Pango/" ∧
    lookupFirst baseURLs "PangoCairo"
      = some "https://gnome.pages.gitlab.gnome.org/pango/pangocairo/" ∧
    (∀ n : String,
      n ∉ ["GObject", "Gdk", "GdkWayland", "GdkX11", "Gsk", "Gtk", "Pango", "PangoCairo"] →
      lookupFirst baseURLs n = none ∧ lookupLast baseURLs n = none) := by
  have hnd : (namespaces baseURLs).Nodup := by decide
  refine ⟨hnd, lookupFirst_eq_lookupLast_of_nodup baseURLs hnd, rfl,
    by decide, by decide, by decide, by decide, by decide, by decide, by decide, by decide,
    ?_⟩
  intro n hn
  have hmem : some n ∉ namespaces baseURLs := by
    intro hc
    apply hn
    simp only [namespaces, baseURLs, entryNamespace, List.map_cons, List.map_nil,
      List.mem_cons, List.mem_singleton] at hc
    simpa using hc
  exact ⟨lookupFirst_none_of_not_mem baseURLs n hmem,
    lookupLast_none_of_not_mem baseURLs n hmem⟩

theorem baseURLs_is_a_map_witness :
    "Shumate" ∉ ["GObject", "Gdk", "GdkWayland", "GdkX11", "Gsk", "Gtk", "Pango", "PangoCairo"] ∧
    lookupFirst baseURLs "Shumate" = none ∧ lookupLast baseURLs "Shumate" = none :=
  ⟨by decide, baseURLs_is_a_map.2.2.2.2.2.2.2.2.2.2.2 "Shumate" (by decide)⟩

/-- C9: every entry of `baseURLs` is an array of exactly two strings: a
non-empty namespace, and a URL that starts with `https://` and ends with `/`; a
relative path appended to the URL gives a string that starts with that URL. -/
theorem baseURLs_entries_well_formed (entry : List String) (h : entry ∈ baseURLs) :
    ∃ ns url : String, entry = [ns, url] ∧ ns ≠ "" ∧ 0 < ns.length ∧
      startsWith url "https://" = true ∧ endsWith url "/" = true ∧
      ∀ path : String, startsWith (url ++ path) url = true := by
  have hp : ∀ url path : String, startsWith (url ++ path) url = true := by
    intro url path
    simp only [startsWith, String.toList, String.data_append]
    exact isPrefixOf_append_self _ _
  simp only [baseURLs, List.mem_cons, List.mem_singleton, List.not_mem_nil, or_false] at h
  rcases h with h | h | h | h | h | h | h | h <;> subst h <;>
    exact ⟨_, _, rfl, by decide, by decide, by decide, by decide, hp _⟩

theorem baseURLs_entries_well_formed_witness :
    ["Gtk", "https://docs.gtk.org/gtk4/"] ∈ baseURLs ∧
    ∃ ns url : String, ["Gtk", "https://docs.gtk.org/gtk4/"] = [ns, url] ∧ ns ≠ "" ∧
      0 < ns.length ∧ startsWith url "https://" = true ∧ endsWith url "/" = true ∧
      startsWith (url ++ "class.Window.html") url = true := by
  obtain ⟨ns, url, h1, h2, h3, h4, h5, h6⟩ :=
    baseURLs_entries_well_formed ["Gtk", "https://docs.gtk.org/gtk4/"] (by decide)
  exact ⟨by decide, ns, url, h1, h2, h3, h4, h5, h6 "class.Window.html"⟩

/-- C10: the entries of `baseURLs` are in strictly ascending order of namespace
under code-unit comparison: each entry's namespace is strictly less than the next
entry's. -/
theorem baseURLs_strictly_ascending :
    List.Chain' (fun a b : List String => ∃ x y : String,
      entryNamespace a = some x ∧ entryNamespace b = some y ∧
      codeUnits x < codeUnits y ∧ jsLt x y = true) baseURLs ∧
    strictlyAscending baseURLs = true := by
  refine ⟨?_, by decide⟩
  simp only [baseURLs, List.chain'_cons, List.chain'_singleton, and_true]
  refine ⟨?_, ?_, ?_, ?_, ?_, ?_, ?_⟩ <;>
    exact ⟨_, _, rfl, rfl, by decide, by decide⟩

end UrlMap

/-! ## `demos/launcher.js` -/

namespace Launcher

theorem exec_append (l1 l2 : List (Nat × Stmt)) (s0 s : State)
    (h : exec (l1 ++ l2) s0 = .ok s) :
    ∃ s1, exec l1 s0 = .ok s1 ∧ exec l2 s1 = .ok s := by
  induction l1 generalizing s0 with
  | nil => exact ⟨s0, rfl, h⟩
  | cons p rest ih =>
    obtain ⟨line, stmt⟩ := p
    simp only [List.cons_append, exec] at h ⊢
    cases hs : stmt s0 with
    | error e => rw [hs] at h; cases h
    | ok s1 => rw [hs] at h; exact ih s1 h

theorem exec_take_of_le (k j : Nat) (hkj : j ≤ k) (l : List (Nat × Stmt)) (s0 s : State)
    (h : exec (l.take k) s0 = .ok s) : ∃ s1, exec (l.take j) s0 = .ok s1 := by
  have hsplit : l.take k = l.take j ++ (l.take k).drop j := by
    have h1 : (l.take k).take j = l.take j := by
      rw [List.take_take, Nat.min_eq_left hkj]
    rw [← h1, List.take_append_drop]
  rw [hsplit] at h
  obtain ⟨s1, h1, _⟩ := exec_append _ _ _ _ h
  exact ⟨s1, h1⟩

theorem line33_ok (s s1 : State) (h : line33 s = .ok s1) :
    s.globals.imports = some .importer := by
  unfold line33 at h
  simp only [State.read, fromBinding, bind, Except.bind] at h
  cases hi : s.globals.imports with
  | none => rw [hi] at h; cases h
  | some v =>
    rw [hi] at h
    cases v <;> first | rfl | cases h

theorem line62_ok (s s1 : State) (h : line62 s = .ok s1) :
    s.globals.Clutter = some (.module .Clutter) := by
  unfold line62 at h
  simp only [State.read, fromBinding, bind, Except.bind] at h
  cases hi : s.globals.Clutter with
  | none => rw [hi] at h; cases h
  | some v =>
    rw [hi] at h
    cases v with
    | module m =>
      by_cases hm : m = Namespace.Clutter
      · rw [hm]
      · simp [expectModule, hm] at h
    | _ => cases h

theorem line64_ok (s s1 : State) (h : line64 s = .ok s1) :
    ∃ p, s.globals.PADDING = some p := by
  unfold line64 at h
  simp only [State.read, fromBinding, bind, Except.bind] at h
  cases hi : s.globals.PADDING with
  | none =>
    rw [hi] at h
    cases hb : List.lookup Ident.buttons s.lexical with
    | none => rw [hb] at h; cases h
    | some b => rw [hb] at h; cases h
  | some p => exact ⟨p, rfl⟩

theorem exec_single_ok (line : Nat) (stmt : Stmt) (s0 s : State)
    (h : exec [(line, stmt)] s0 = .ok s) : stmt s0 = .ok s := by
  unfold exec at h
  cases hs : stmt s0 with
  | error e => rw [hs] at h; cases h
  | ok s1 => rw [hs] at h; simpa [exec] using h

/-- What a successful run of the first `k` statements says about the global object. -/
theorem run_globals (g : Globals) (k : Nat) (s : State)
    (h : exec (launcher.take k) (initState g) = .ok s) :
    (1 ≤ k → g.imports = some .importer) ∧
    (12 ≤ k → g.Clutter = some (.module .Clutter)) ∧
    (14 ≤ k → ∃ p, g.PADDING = some p) := by
  have h1 : 1 ≤ k → g.imports = some .importer := by
    intro hk
    obtain ⟨s1, hs1⟩ := exec_take_of_le k 1 hk launcher _ _ h
    exact line33_ok _ _ (exec_single_ok 33 line33 _ _ hs1)
  have h12 : 12 ≤ k → g.Clutter = some (.module .Clutter) := by
    intro hk
    have hi := h1 (by omega)
    obtain ⟨gi, gl, gc, gp⟩ := g
    simp only at hi
    subst hi
    obtain ⟨s12, hs12⟩ := exec_take_of_le k 12 hk launcher _ _ h
    obtain ⟨s11, hs11, hstep⟩ := exec_append (launcher.take 11) [(62, line62)] _ _ hs12
    have e11 := Except.ok.inj hs11
    subst e11
    exact line62_ok _ _ (exec_single_ok 62 line62 _ _ hstep)
  refine ⟨h1, h12, ?_⟩
  intro hk
  have hi := h1 (by omega)
  have hc := h12 (by omega)
  obtain ⟨gi, gl, gc, gp⟩ := g
  simp only at hi hc
  subst hi hc
  obtain ⟨s14, hs14⟩ := exec_take_of_le k 14 hk launcher _ _ h
  obtain ⟨s13, hs13, hstep⟩ := exec_append (launcher.take 13) [(64, line64)] _ _ hs14
  have e13 := Except.ok.inj hs13
  subst e13
  exact line64_ok _ _ (exec_single_ok 64 line64 _ _ hstep)

theorem exec_snoc_ok (l : List (Nat × Stmt)) (line : Nat) (stmt : Stmt) (s0 s1 s2 : State)
    (h1 : exec l s0 = .ok s1) (h2 : stmt s1 = .ok s2) :
    exec (l ++ [(line, stmt)]) s0 = .ok s2 := by
  induction l generalizing s0 with
  | nil =>
    cases h1
    simp [exec, h2]
  | cons q rest ih =>
    obtain ⟨n, st⟩ := q
    simp only [List.cons_append, exec] at h1 ⊢
    cases hs : st s0 with
    | error e => rw [hs] at h1; cases h1
    | ok s3 => rw [hs] at h1; simpa using ih s3 h1

/-- Lines 33-59 need only `imports`. -/
theorem traceA (gl gc gp : Option Value) (p : Value) (k : Nat) (hk : k ≤ 11) :
    exec (launcher.take k) (initState ⟨some .importer, gl, gc, gp⟩)
      = .ok (trace ⟨some .importer, gl, gc, gp⟩ p k) := by
  have t0 : exec [] (initState ⟨some .importer, gl, gc, gp⟩)
      = .ok (trace ⟨some .importer, gl, gc, gp⟩ p 0) := rfl
  have t1 := exec_snoc_ok _ 33 line33 _ _ (trace ⟨some .importer, gl, gc, gp⟩ p 1) t0 rfl
  have t2 := exec_snoc_ok _ 34 line34 _ _ (trace ⟨some .importer, gl, gc, gp⟩ p 2) t1 rfl
  have t3 := exec_snoc_ok _ 36 line36 _ _ (trace ⟨some .importer, gl, gc, gp⟩ p 3) t2 rfl
  have t4 := exec_snoc_ok _ 37 line37 _ _ (trace ⟨some .importer, gl, gc, gp⟩ p 4) t3 rfl
  have t5 := exec_snoc_ok _ 38 line38 _ _ (trace ⟨some .importer, gl, gc, gp⟩ p 5) t4 rfl
  have t6 := exec_snoc_ok _ 40 line40 _ _ (trace ⟨some .importer, gl, gc, gp⟩ p 6) t5 rfl
  have t7 := exec_snoc_ok _ 53 line53 _ _ (trace ⟨some .importer, gl, gc, gp⟩ p 7) t6 rfl
  have t8 := exec_snoc_ok _ 54 line54 _ _ (trace ⟨some .importer, gl, gc, gp⟩ p 8) t7 rfl
  have t9 := exec_snoc_ok _ 55 line55 _ _ (trace ⟨some .importer, gl, gc, gp⟩ p 9) t8 rfl
  have t10 := exec_snoc_ok _ 58 line58 _ _ (trace ⟨some .importer, gl, gc, gp⟩ p 10) t9 rfl
  have t11 := exec_snoc_ok _ 59 line59 _ _ (trace ⟨some .importer, gl, gc, gp⟩ p 11) t10 rfl
  interval_cases k
  · exact t0
  · exact t1
  · exact t2
  · exact t3
  · exact t4
  · exact t5
  · exact t6
  · exact t7
  · exact t8
  · exact t9
  · exact t10
  · exact t11

/-- Lines 62-63 need `Clutter` as well. -/
theorem traceB (gl gp : Option Value) (p : Value) (k : Nat) (hk : k ≤ 13) :
    exec (launcher.take k) (initState ⟨some .importer, gl, some (.module .Clutter), gp⟩)
      = .ok (trace ⟨some .importer, gl, some (.module .Clutter), gp⟩ p k) := by
  have t11 : exec (launcher.take 11) (initState ⟨some .importer, gl, some (.module .Clutter), gp⟩)
      = .ok (trace ⟨some .importer, gl, some (.module .Clutter), gp⟩ p 11) := traceA gl _ gp p 11 (by omega)
  have t12 := exec_snoc_ok _ 62 line62 _ _ (trace ⟨some .importer, gl, some (.module .Clutter), gp⟩ p 12) t11 rfl
  have t13 := exec_snoc_ok _ 63 line63 _ _ (trace ⟨some .importer, gl, some (.module .Clutter), gp⟩ p 13) t12 rfl
  by_cases hle : k ≤ 11
  · exact traceA gl _ gp p k hle
  · have hlo : 12 ≤ k := by omega
    interval_cases k
    · exact t12
    · exact t13

/-- From line 64 on the run needs `PADDING` too, bound to `p`. -/
theorem traceC (gl : Option Value) (p : Value) (k : Nat) (hk : k ≤ 29) :
    exec (launcher.take k) (initState ⟨some .importer, gl, some (.module .Clutter), some p⟩)
      = .ok (trace ⟨some .importer, gl, some (.module .Clutter), some p⟩ p k) := by
  have t13 : exec (launcher.take 13) (initState ⟨some .importer, gl, some (.module .Clutter), some p⟩)
      = .ok (trace ⟨some .importer, gl, some (.module .Clutter), some p⟩ p 13) := traceB gl _ p 13 (by omega)
  have t14 := exec_snoc_ok _ 64 line64 _ _ (trace ⟨some .importer, gl, some (.module .Clutter), some p⟩ p 14) t13 rfl
  have t15 := exec_snoc_ok _ 68 line68 _ _ (trace ⟨some .importer, gl, some (.module .Clutter), some p⟩ p 15) t14 rfl
  have t16 := exec_snoc_ok _ 69 line69 _ _ (trace ⟨some .importer, gl, some (.module .Clutter), some p⟩ p 16) t15 rfl
  have t17 := exec_snoc_ok _ 70 line70 _ _ (trace ⟨some .importer, gl, some (.module .Clutter), some p⟩ p 17) t16 rfl
  have t18 := exec_snoc_ok _ 71 line71 _ _ (trace ⟨some .importer, gl, some (.module .Clutter), some p⟩ p 18) t17 rfl
  have t19 := exec_snoc_ok _ 72 line72 _ _ (trace ⟨some .importer, gl, some (.module .Clutter), some p⟩ p 19) t18 rfl
  have t20 := exec_snoc_ok _ 73 line73 _ _ (trace ⟨some .importer, gl, some (.module .Clutter), some p⟩ p 20) t19 rfl
  have t21 := exec_snoc_ok _ 74 line74 _ _ (trace ⟨some .importer, gl, some (.module .Clutter), some p⟩ p 21) t20 rfl
  have t22 := exec_snoc_ok _ 75 line75 _ _ (trace ⟨some .importer, gl, some (.module .Clutter), some p⟩ p 22) t21 rfl
  have t23 := exec_snoc_ok _ 77 line77 _ _ (trace ⟨some .importer, gl, some (.module .Clutter), some p⟩ p 23) t22 rfl
  have t24 := exec_snoc_ok _ 80 line80 _ _ (trace ⟨some .importer, gl, some (.module .Clutter), some p⟩ p 24) t23 rfl
  have t25 := exec_snoc_ok _ 81 line81 _ _ (trace ⟨some .importer, gl, some (.module .Clutter), some p⟩ p 25) t24 rfl
  have t26 := exec_snoc_ok _ 82 line82 _ _ (trace ⟨some .importer, gl, some (.module .Clutter), some p⟩ p 26) t25 rfl
  have t27 := exec_snoc_ok _ 84 line84 _ _ (trace ⟨some .importer, gl, some (.module .Clutter), some p⟩ p 27) t26 rfl
  have t28 := exec_snoc_ok _ 86 line86 _ _ (trace ⟨some .importer, gl, some (.module .Clutter), some p⟩ p 28) t27 rfl
  have t29 := exec_snoc_ok _ 87 line87 _ _ (trace ⟨some .importer, gl, some (.module .Clutter), some p⟩ p 29) t28 rfl
  by_cases hle : k ≤ 13
  · exact traceB gl _ p k hle
  · have hlo : 14 ≤ k := by omega
    interval_cases k
    · exact t14
    · exact t15
    · exact t16
    · exact t17
    · exact t18
    · exact t19
    · exact t20
    · exact t21
    · exact t22
    · exact t23
    · exact t24
    · exact t25
    · exact t26
    · exact t27
    · exact t28
    · exact t29

/-- Every successful run of the first `k` statements ends in the traced state. -/
theorem run_eq_trace (g : Globals) (k : Nat) (s : State) (hk : k ≤ 29)
    (h : exec (launcher.take k) (initState g) = .ok s) :
    ∃ p, s = trace g p k ∧ (14 ≤ k → g.PADDING = some p) := by
  obtain ⟨h1, h12, h14⟩ := run_globals g k s h
  by_cases hk0 : k = 0
  · subst hk0
    exact ⟨.undefined, (Except.ok.inj h).symm, by omega⟩
  have hi := h1 (by omega)
  obtain ⟨gi, gl, gc, gp⟩ := g
  simp only at hi
  subst hi
  by_cases hk11 : k ≤ 11
  · have ht := traceA gl gc gp .undefined k hk11
    rw [ht] at h
    exact ⟨.undefined, (Except.ok.inj h).symm, by omega⟩
  have hc := h12 (by omega)
  simp only at hc
  subst hc
  by_cases hk13 : k ≤ 13
  · have ht := traceB gl gp .undefined k hk13
    rw [ht] at h
    exact ⟨.undefined, (Except.ok.inj h).symm, by omega⟩
  obtain ⟨p, hp⟩ := h14 (by omega)
  simp only at hp
  subst hp
  have ht := traceC gl p k hk
  rw [ht] at h
  exact ⟨p, (Except.ok.inj h).symm, fun _ => rfl⟩

theorem hasScriptHandler_of_mem (s : State) (r : Nat) (signal : String) (f : ScriptFn)
    (h : Value.scriptFn f ∈ s.handlersFor r signal) : hasScriptHandler s = true := by
  unfold State.handlersFor at h
  cases hget : s.heap[r]? with
  | none => rw [hget] at h; simp at h
  | some o =>
    rw [hget] at h
    simp only [List.mem_map, List.mem_filter] at h
    obtain ⟨q, ⟨hq, _⟩, hq2⟩ := h
    unfold hasScriptHandler
    rw [List.any_eq_true]
    refine ⟨o, List.getElem?_mem hget, ?_⟩
    rw [List.any_eq_true]
    exact ⟨q, hq, by rw [hq2]⟩

theorem viewInWindow_sound (s : State) (h : viewInWindow s = true) :
    ∃ v w : Nat, ∃ viewObj : View, ∃ win : Window,
      s.read .view = .ok (.ref v) ∧ s.heap[v]? = some (.view viewObj) ∧
      s.read .window = .ok (.ref w) ∧ s.heap[w]? = some (.window win) ∧
      v ∈ win.children := by
  unfold viewInWindow at h
  split at h
  · rename_i v w hv hw
    split at h
    · rename_i viewObj win hvo hwo
      refine ⟨v, w, viewObj, win, ?_, hvo, ?_, hwo, ?_⟩
      · show fromBinding .view (s.lexical.lookup .view) = _
        rw [hv]; rfl
      · show fromBinding .window (s.lexical.lookup .window) = _
        rw [hw]; rfl
      · simpa using h
    · cases h
  · cases h

theorem trace_inv (g : Globals) (p : Value) (k : Nat) (hk : k ≤ 29) :
    (!hasScriptHandler (trace g p k) || viewInWindow (trace g p k)) = true := by
  interval_cases k <;> rfl

theorem trace_no_handler (g : Globals) (p : Value) (k : Nat) (hk : k ≤ 22) :
    hasScriptHandler (trace g p k) = false ∧ (trace g p k).logged = [] := by
  interval_cases k <;> exact ⟨rfl, rfl⟩

theorem take_launcher_of_ge (k : Nat) (hk : 29 ≤ k) : launcher.take k = launcher.take 29 := by
  have hlen : launcher.length = 29 := rfl
  rw [List.take_of_length_le (by omega), List.take_of_length_le (by omega)]

/-- C1: started from the global object gjs provides (`imports` and `log`; the script
itself binds `Gdk`, `Gtk` and `Shumate`), the run stops at line 62 with a
ReferenceError on `Clutter`: it has instantiated the view (line 58) but never
reaches the marker layer, `view.add_layer` or `view.connect`. -/
theorem launcher_stops_at_line_62 :
    runScript gjsGlobals = .error (62, .referenceError .Clutter) ∧
    stateAt gjsGlobals 77 = .error (62, .referenceError .Clutter) ∧
    stateAt gjsGlobals 62 = .ok (trace gjsGlobals .undefined 11) ∧
    (trace gjsGlobals .undefined 11).heap = [windowAt59, viewAt58] ∧
    (trace gjsGlobals .undefined 11).read .layer = .error (.referenceError .layer) ∧
    line62 (trace gjsGlobals .undefined 11) = .error (.referenceError .Clutter) := by
  refine ⟨rfl, rfl, rfl, rfl, rfl, rfl⟩

/-- C4: the run of `launcher.js` from the global object gjs provides never arrives
at `view.add_layer(layer)` on line 75: it stops at line 62 on the unbound
`Clutter`. When it stops, the only toolkit objects are the window and the view,
`layer` and `marker` are uninitialised, and no marker layer holding a marker
exists. Only in a run whose global object also binds `Clutter` and `PADDING` do
lines 69-74 leave, at line 75, a layer holding the one marker, located at
(45.466, -73.75) and reactive. -/
theorem marker_layer_never_built :
    stateAt gjsGlobals 75 = .error (62, .referenceError .Clutter) ∧
    stateAt gjsGlobals 62 = .ok (trace gjsGlobals .undefined 11) ∧
    (trace gjsGlobals .undefined 11).heap = [windowAt59, viewAt58] ∧
    (trace gjsGlobals .undefined 11).read .layer = .error (.referenceError .layer) ∧
    (trace gjsGlobals .undefined 11).read .marker = .error (.referenceError .marker) ∧
    stateAt gjsGlobalsWithClutter 75 = .ok (trace gjsGlobalsWithClutter (.num 10) 21) ∧
    (trace gjsGlobalsWithClutter (.num 10) 21).read .layer = .ok (.ref 4) ∧
    (trace gjsGlobalsWithClutter (.num 10) 21).heap[4]?
      = some (.markerLayer { markers := [5], visible := true }) ∧
    (trace gjsGlobalsWithClutter (.num 10) 21).heap[5]? = some markerAt73 := by
  refine ⟨rfl, rfl, rfl, rfl, rfl, ?_, rfl, rfl, rfl⟩
  show exec (launcher.take 21) (initState gjsGlobalsWithClutter) = _
  exact traceC _ _ 21 (by omega)

/-- C5: the run of `launcher.js` from the global object gjs provides never arrives
at `Gtk.main ()` on line 87: it stops at line 62 on the unbound `Clutter`. When it
stops, the window's size request is 800 by 600 (line 55 has run), but the view
has no zoom level and no centre (lines 80 and 82 have not run) and `marker` is
uninitialised, so no marker has a location. Only in a run whose global object
also binds `Clutter` and `PADDING` is the view at line 87 at zoom level 12 and
centred on (45.466, -73.75), the location of the marker. -/
theorem view_never_configured :
    stateAt gjsGlobals 87 = .error (62, .referenceError .Clutter) ∧
    runScript gjsGlobals = .error (62, .referenceError .Clutter) ∧
    stateAt gjsGlobals 62 = .ok (trace gjsGlobals .undefined 11) ∧
    (trace gjsGlobals .undefined 11).heap[0]? = some windowAt59 ∧
    (trace gjsGlobals .undefined 11).heap[1]? = some
      (.view { layers := [], zoom_level := none, kinetic_mode := false, center := none,
               handlers := [] }) ∧
    (trace gjsGlobals .undefined 11).read .marker = .error (.referenceError .marker) ∧
    (trace gjsGlobals .undefined 11).mainLoop = false ∧
    stateAt gjsGlobalsWithClutter 87 = .ok (trace gjsGlobalsWithClutter (.num 10) 28) ∧
    (trace gjsGlobalsWithClutter (.num 10) 28).heap[1]? = some (.view viewAt82Record) ∧
    (trace gjsGlobalsWithClutter (.num 10) 28).heap[5]? = some markerAt73 := by
  refine ⟨rfl, rfl, rfl, rfl, rfl, rfl, rfl, ?_, rfl, rfl⟩
  show exec (launcher.take 28) (initState gjsGlobalsWithClutter) = _
  exact traceC _ _ 28 (by omega)

/-- C6: in a run that gets as far as line 77, the handler is connected to the view
under the signal name `button-pressed-event`, and nothing is connected under
`button-release-event`; in the run from the plain gjs global object nothing is
connected at all, because the run stops at line 62. -/
theorem handler_connected_to_pressed_signal :
    runScript gjsGlobalsWithClutter = .ok exampleState ∧
    exampleState.read .view = .ok (.ref 1) ∧
    exampleState.heap.map Obj.handlers =
      [[("destroy", .hostFn .main_quit)], [("button-pressed-event", .scriptFn .arrow77)],
       [], [], [], []] ∧
    exampleState.handlersFor 1 "button-pressed-event" = [.scriptFn .arrow77] ∧
    exampleState.handlersFor 1 "button-release-event" = [] ∧
    "button-pressed-event" ≠ "button-release-event" ∧
    stateAt gjsGlobals 80 = .error (62, .referenceError .Clutter) := by
  refine ⟨traceC _ _ 29 (by omega), rfl, rfl, by decide, by decide, by decide, rfl⟩

theorem callback_frame (h : Host) (s : State) (e : Event) (ret : Value) (s1 : State)
    (hh : map_view_button_release_cb h s e = .ok (ret, s1)) :
    s1.heap = s.heap ∧ s1.lexical = s.lexical ∧ ret = .bool true := by
  unfold map_view_button_release_cb at hh
  simp only [bind, Except.bind, pure, Except.pure] at hh
  repeat' split at hh
  all_goals (cases hh; try exact ⟨rfl, rfl, rfl⟩)

theorem invokeHandler_frame (h : Host) (s : State) (f w ret : Value) (e : Event) (s1 : State)
    (hh : invokeHandler h s f w e = .ok (ret, s1)) :
    s1.heap = s.heap ∧ s1.lexical = s.lexical := by
  unfold invokeHandler at hh
  split at hh
  · unfold arrow77 at hh
    simp only [State.read, bind, Except.bind] at hh
    exact ⟨(callback_frame h s e ret s1 hh).1, (callback_frame h s e ret s1 hh).2.1⟩
  · exact ⟨(callback_frame h s e ret s1 hh).1, (callback_frame h s e ret s1 hh).2.1⟩
  · injection hh with hh
    injection hh with h1 h2
    subst h2
    exact ⟨rfl, rfl⟩
  · cases hh

/-- In every reachable state, a connected script handler implies an initialised view. -/
theorem reach_inv (h : Host) (g : Globals) (s : State) (hr : Reachable h g s) :
    hasScriptHandler s = true → viewInWindow s = true := by
  induction hr with
  | script k s hk =>
    have hk29 : exec (launcher.take (min k 29)) (initState g) = .ok s := by
      by_cases hle : k ≤ 29
      · rw [Nat.min_eq_left hle]; exact hk
      · rw [Nat.min_eq_right (by omega), ← take_launcher_of_ge k (by omega)]; exact hk
    obtain ⟨p, hs, _⟩ := run_eq_trace g (min k 29) s (Nat.min_le_right _ _) hk29
    subst hs
    intro hhas
    have hinv := trace_inv g p (min k 29) (Nat.min_le_right _ _)
    rw [hhas] at hinv
    simpa using hinv
  | dispatch s s1 r signal f w ret event _ _ hinvoke ih =>
    obtain ⟨hheap, hlex⟩ := invokeHandler_frame h s f w ret event s1 hinvoke
    intro hhas
    have hhas0 : hasScriptHandler s = true := by
      unfold hasScriptHandler at hhas ⊢
      rw [← hheap]; exact hhas
    have hv := ih hhas0
    unfold viewInWindow at hv ⊢
    rw [hheap, hlex]; exact hv

/-- C8: a script-defined handler can run only in a state where `view` is
initialised. In every reachable state (after any number of the script's
statements, and after any handler the toolkit has called), if a script-defined
function is connected to some signal of some object, then reading `view` succeeds
and yields the `Shumate.View` that the window contains. The script makes the
handler callable nowhere before line 77: after at most the 22 statements before
it, no script-defined function is connected and nothing has been logged, so no
statement has called `map_view_button_release_cb` itself. -/
theorem handler_runs_only_with_view_bound (h : Host) (g : Globals) :
    (∀ s : State, Reachable h g s →
      ∀ (r : Nat) (signal : String) (f : ScriptFn),
        Value.scriptFn f ∈ s.handlersFor r signal →
        ∃ v w : Nat, ∃ viewObj : View, ∃ win : Window,
          s.read .view = .ok (.ref v) ∧ s.heap[v]? = some (.view viewObj) ∧
          s.viewOf (.ref v) = .ok viewObj ∧
          s.read .window = .ok (.ref w) ∧ s.heap[w]? = some (.window win) ∧
          v ∈ win.children) ∧
    (∀ (k : Nat) (s : State), k ≤ 22 → exec (launcher.take k) (initState g) = .ok s →
      s.logged = [] ∧
      ∀ (r : Nat) (signal : String) (f : ScriptFn),
        Value.scriptFn f ∉ s.handlersFor r signal) := by
  constructor
  · intro s hr r signal f hf
    have hhas := hasScriptHandler_of_mem s r signal f hf
    obtain ⟨v, w, viewObj, win, h1, h2, h3, h4, h5⟩ :=
      viewInWindow_sound s (reach_inv h g s hr hhas)
    refine ⟨v, w, viewObj, win, h1, h2, ?_, h3, h4, h5⟩
    simp only [State.viewOf, h2]
  · intro k s hk hrun
    obtain ⟨p, hs, _⟩ := run_eq_trace g k s (by omega) hrun
    subst hs
    obtain ⟨hno, hlog⟩ := trace_no_handler g p k hk
    refine ⟨hlog, ?_⟩
    intro r signal f hf
    have hhas := hasScriptHandler_of_mem _ r signal f hf
    rw [hno] at hhas
    cases hhas

theorem handler_runs_only_with_view_bound_witness :
    Reachable exampleHost gjsGlobalsWithClutter exampleState ∧
    Value.scriptFn .arrow77 ∈ exampleState.handlersFor 1 "button-pressed-event" ∧
    ∃ v w : Nat, ∃ viewObj : View, ∃ win : Window,
      exampleState.read .view = .ok (.ref v) ∧ exampleState.heap[v]? = some (.view viewObj) ∧
      exampleState.viewOf (.ref v) = .ok viewObj ∧
      exampleState.read .window = .ok (.ref w) ∧
      exampleState.heap[w]? = some (.window win) ∧ v ∈ win.children :=
  have hreach : Reachable exampleHost gjsGlobalsWithClutter exampleState :=
    Reachable.script 29 exampleState (traceC _ _ 29 (by omega))
  have hmem : Value.scriptFn .arrow77 ∈ exampleState.handlersFor 1 "button-pressed-event" := by
    decide
  ⟨hreach, hmem,
    (handler_runs_only_with_view_bound exampleHost gjsGlobalsWithClutter).1
      exampleState hreach 1 "button-pressed-event" .arrow77 hmem⟩

/-- C2: in a state where `view` is an initialised `Shumate.View` and `log` is the
host's `log`, for every event `e`: if `view.y_to_latitude(e.button.y)` returns
`lat` and `view.x_to_longitude(e.button.x)` returns `lon`, the handler calls `log`
with exactly the format string, then `lat`, then `lon`, and its outcome is the
outcome of that call. The handler reads nothing else of the event: two events
with the same `button.x` and `button.y` give the same result, in any state and
for any host. -/
theorem click_logs_latitude_then_longitude (h : Host) (s : State) (e : Event) (v : Nat)
    (viewObj : View) (lat lon : ℚ)
    (hview : s.read .view = .ok (.ref v)) (hobj : s.heap[v]? = some (.view viewObj))
    (hlog : s.read .log = .ok (.hostFn .log))
    (hlat : h.y_to_latitude viewObj e.button.y = .ok lat)
    (hlon : h.x_to_longitude viewObj e.button.x = .ok lon) :
    map_view_button_release_cb h s e =
      (match h.log [.str "Map clicked at %f, %f \n", .num lat, .num lon] with
       | .ok _ => .ok (.bool true,
           { s with logged :=
               s.logged ++ [[.str "Map clicked at %f, %f \n", .num lat, .num lon]] })
       | .error err => .error err) ∧
    ∀ (h2 : Host) (s2 : State) (e1 e2 : Event),
      e1.button.x = e2.button.x → e1.button.y = e2.button.y →
      map_view_button_release_cb h2 s2 e1 = map_view_button_release_cb h2 s2 e2 := by
  constructor
  · unfold map_view_button_release_cb
    simp only [hview, State.viewOf, hobj, hlat, hlon, hlog, bind, Except.bind, pure,
      Except.pure, clickFormat]
    cases h.log [.str "Map clicked at %f, %f \n", .num lat, .num lon] <;> rfl
  · intro h2 s2 e1 e2 hx hy
    unfold map_view_button_release_cb
    rw [hx, hy]

theorem click_logs_latitude_then_longitude_witness :
    map_view_button_release_cb exampleHost exampleState exampleEvent =
      .ok (.bool true,
        { exampleState with logged :=
            [[.str "Map clicked at %f, %f \n", .num (90 - 300), .num (400 - 180)]] }) ∧
    map_view_button_release_cb exampleHost exampleState exampleEvent2 =
      map_view_button_release_cb exampleHost exampleState exampleEvent :=
  ⟨(click_logs_latitude_then_longitude exampleHost exampleState exampleEvent 1 viewAt82Record
      (90 - 300) (400 - 180) rfl rfl rfl rfl rfl).1,
   (click_logs_latitude_then_longitude exampleHost exampleState exampleEvent 1 viewAt82Record
      (90 - 300) (400 - 180) rfl rfl rfl rfl rfl).2
      exampleHost exampleState exampleEvent2 exampleEvent rfl rfl⟩

/-- C7: in a state where `view` is an initialised `Shumate.View` and `log` is the
host's `log`, for every event `e` for which `view.y_to_latitude`,
`view.x_to_longitude` and `log` return normally, `map_view_button_release_cb(e)`
returns `true`, and the arrow function connected on line 77, called by the
toolkit with any widget argument `w`, returns that same value `true`. -/
theorem click_handler_returns_true (h : Host) (s : State) (e : Event) (v : Nat)
    (viewObj : View) (lat lon : ℚ)
    (hview : s.read .view = .ok (.ref v)) (hobj : s.heap[v]? = some (.view viewObj))
    (hlog : s.read .log = .ok (.hostFn .log))
    (hlat : h.y_to_latitude viewObj e.button.y = .ok lat)
    (hlon : h.x_to_longitude viewObj e.button.x = .ok lon)
    (hl : h.log [.str "Map clicked at %f, %f \n", .num lat, .num lon] = .ok ()) :
    ∃ s1 : State,
      map_view_button_release_cb h s e = .ok (.bool true, s1) ∧
      (∀ w : Value, arrow77 h s w e = .ok (.bool true, s1)) ∧
      (∀ w : Value, invokeHandler h s (.scriptFn .arrow77) w e = .ok (.bool true, s1)) := by
  have hcb : map_view_button_release_cb h s e = .ok (.bool true,
      { s with logged :=
          s.logged ++ [[.str "Map clicked at %f, %f \n", .num lat, .num lon]] }) := by
    unfold map_view_button_release_cb
    simp only [hview, State.viewOf, hobj, hlat, hlon, hlog, bind, Except.bind, pure,
      Except.pure, clickFormat, hl]
  have harrow : ∀ w : Value, arrow77 h s w e = map_view_button_release_cb h s e := by
    intro w
    unfold arrow77
    simp only [State.read, bind, Except.bind]
  refine ⟨_, hcb, ?_, ?_⟩
  · intro w
    rw [harrow w, hcb]
  · intro w
    show arrow77 h s w e = _
    rw [harrow w, hcb]

theorem click_handler_returns_true_witness :
    ∃ s1 : State,
      map_view_button_release_cb exampleHost exampleState exampleEvent = .ok (.bool true, s1) ∧
      arrow77 exampleHost exampleState (.ref 1) exampleEvent = .ok (.bool true, s1) ∧
      invokeHandler exampleHost exampleState (.scriptFn .arrow77) (.ref 1) exampleEvent
        = .ok (.bool true, s1) := by
  obtain ⟨s1, h1, h2, h3⟩ :=
    click_handler_returns_true exampleHost exampleState exampleEvent 1 viewAt82Record
      (90 - 300) (400 - 180) rfl rfl rfl rfl rfl rfl
  exact ⟨s1, h1, h2 (.ref 1), h3 (.ref 1)⟩

end Launcher
